import Mathlib

/-!
Verification of the trace timeline view composition layer and the org-users
table of the Canyun/grafana excerpt.  The TypeScript sources under
`public/app/features/admin/Users/OrgUsersTable.tsx` (which concatenates the
`OrgUsersTable` component, the `CorrelationFormNavigation` component, and the
`TraceView` component with its `useFocusSpanLink` hook) are embedded below as
pure Lean functions; stateful React hooks become explicit state-transition
functions.  Hooks whose implementation is imported from files not present in
the excerpt (`useSearch`, `useChildrenState`, `memoizedTraceCriticalPath`)
are modelled from the specification text and marked as such.
-/

namespace Grafana

/-- A span of a distributed trace (data model of spec section 3: unique id,
parent reference or none, start time, duration, service/process reference,
tags, log events). -/
structure Span where
  spanID : String
  parentID : Option String
  startTime : Nat
  duration : Nat
  serviceName : String
  operationName : String
  tags : List (String × String)
  logs : List String
deriving DecidableEq, Repr

/-- A trace: an id and an ordered collection of spans. -/
structure Trace where
  traceID : String
  spans : List Span
deriving DecidableEq, Repr

/-- A data frame backing the trace view; only its optional `refId` is
consulted by the embedded code. -/
structure DataFrame where
  refId : Option String
deriving DecidableEq, Repr

/-- Identity of a datasource: `uid` and `name` as read from
`options.datasource` in `useFocusSpanLink`. -/
structure DataSourceRef where
  uid : String
  name : String
deriving DecidableEq, Repr

/-- The part of a `DataQuery` read by `useFocusSpanLink`: its `refId`, its
optional `queryType`, and (for Tempo queries) its `query` string. -/
structure DataQuery where
  refId : String
  queryType : Option String
  query : String
deriving DecidableEq, Repr

/-- Result of the JavaScript spread `{...query, query: traceId}` where
`query` may be `undefined`: each field of the (possibly absent) query is
carried over, and the `query` string is overwritten with the trace id. -/
structure SpreadQuery where
  refId : Option String
  queryType : Option String
  query : String
deriving DecidableEq, Repr

/-- `{...query, query: traceId}` for a possibly-undefined `query`. -/
def spreadWithTraceId (q : Option DataQuery) (traceId : String) : SpreadQuery :=
  { refId := q.map (·.refId)
    queryType := q.bind (·.queryType)
    query := traceId }

/-- The argument record passed to `splitOpenFn` in the different-trace branch
of `createFocusSpanLink`: datasource uid, a singleton query list, and the
panel state that pre-focuses a span in the new view. -/
structure SplitOpenArgs where
  datasourceUid : Option String
  queries : List SpreadQuery
  panelSpanId : String
deriving DecidableEq, Repr

/-- The click behaviour attached to a focus link: either dispatch a panel
state update setting the focused span id (the same-trace branch), or open a
split view (the different-trace branch with a `splitOpenFn` available), or
no action at all (`onClickFn` left `undefined`). -/
inductive ClickAction where
  | setFocus (spanId : Option String)
  | splitOpen (args : SplitOpenArgs)
  | noAction
deriving DecidableEq, Repr

/-- The link descriptor produced by `createFocusSpanLink` (after
`mapInternalLinkToExplore`, which carries the fields through): title, url,
datasource identity of the internal link, the spread query, the panel state
span id, and the click action. -/
structure LinkModel where
  title : String
  url : String
  datasourceUid : Option String
  datasourceName : Option String
  linkQuery : SpreadQuery
  panelSpanId : String
  onClick : ClickAction
deriving DecidableEq, Repr

/-- The options record of `useFocusSpanLink`.  `splitOpenFn` is a function in
the source; here only its presence matters (`props.splitOpenFn!` may still be
`undefined` at runtime, which the source guards with a ternary). -/
structure FocusLinkOptions where
  exploreId : String
  hasSplitOpenFn : Bool
  refId : Option String
  datasource : Option DataSourceRef
deriving DecidableEq, Repr

/-- The same-trace check of `createFocusSpanLink`:
the query type must be the string `traceql` and the query string must equal
the trace id (`query?.queryType` compared with `traceql`, and the Tempo
query string compared with `traceId`). -/
def sameTraceCheck (q : Option DataQuery) (traceId : String) : Bool :=
  match q with
  | some qq => decide (qq.queryType = some "traceql") && decide (qq.query = traceId)
  | none => false

/-- Embedding of `createFocusSpanLink` from `useFocusSpanLink`:
builds the deep-link descriptor and, depending on the same-trace check,
attaches either the in-place focus toggle
(`setFocusedSpanId(focusedSpanId === spanId ? undefined : spanId)`),
a `splitOpenFn` invocation, or no click handler. -/
def createFocusSpanLink (opts : FocusLinkOptions) (q : Option DataQuery)
    (focusedSpanId : Option String) (traceId spanId : String) : LinkModel :=
  { title := "Deep link to this span"
    url := ""
    datasourceUid := opts.datasource.map (·.uid)
    datasourceName := opts.datasource.map (·.name)
    linkQuery := spreadWithTraceId q traceId
    panelSpanId := spanId
    onClick :=
      if sameTraceCheck q traceId then
        ClickAction.setFocus (if focusedSpanId = some spanId then none else some spanId)
      else if opts.hasSplitOpenFn then
        ClickAction.splitOpen
          { datasourceUid := opts.datasource.map (·.uid)
            queries := [spreadWithTraceId q traceId]
            panelSpanId := spanId }
      else ClickAction.noAction }

/-- The focused-span panel state after clicking the focus link: a
`setFocus` action replaces the focused span id, any other action leaves the
locally-tracked focus unchanged. -/
def focusAfterClick (opts : FocusLinkOptions) (q : Option DataQuery)
    (focusedSpanId : Option String) (traceId spanId : String) : Option String :=
  match (createFocusSpanLink opts q focusedSpanId traceId spanId).onClick with
  | ClickAction.setFocus x => x
  | _ => focusedSpanId

/-- End time of a span. -/
def spanEnd (s : Span) : Nat := s.startTime + s.duration

/-- Modelled from the spec: the pure critical-path computation of
`./components/CriticalPath` (not in the excerpt).  Per spec section 4.4,
the path is the chain from the root to the latest-finishing leaf, following
at each step the child whose interval determines the parent completion. -/
def childrenOf (spans : List Span) (pid : String) : List Span :=
  spans.filter (fun s => s.parentID = some pid)

/-- Modelled from the spec: the latest-finishing span of a list. -/
def latestFinishing : List Span → Option Span
  | [] => none
  | s :: rest =>
    match latestFinishing rest with
    | none => some s
    | some m => if spanEnd m ≤ spanEnd s then some s else some m

/-- Modelled from the spec: walk down from a span, at each step taking the
latest-finishing child; fuel bounds the walk by the number of spans. -/
def criticalPathFrom (spans : List Span) : Nat → Span → List String
  | 0, cur => [cur.spanID]
  | fuel + 1, cur =>
    match latestFinishing (childrenOf spans cur.spanID) with
    | none => [cur.spanID]
    | some c => cur.spanID :: criticalPathFrom spans fuel c

/-- Modelled from the spec: the (unmemoized) critical path of a trace —
ids of the chain of spans causally bounding the total trace duration,
starting at the root span (the span with no parent). -/
def criticalPathOfTrace (t : Trace) : List String :=
  match t.spans.find? (fun s => s.parentID = none) with
  | none => []
  | some root => criticalPathFrom t.spans t.spans.length root

/-- Cache of the memoized critical-path computation: at most one entry,
keyed by trace identity. -/
structure CriticalPathCache where
  entry : Option (Trace × List String)
deriving DecidableEq, Repr

/-- Modelled from the spec: `memoizedTraceCriticalPath` of
`./components/CriticalPath` (not in the excerpt) — `criticalPath(trace)`
memoized keyed by trace identity, recomputing only when the trace changes
(spec section 4.4).  Returns the result, the new cache, and whether the
result was recomputed rather than served from the cache. -/
def memoizedTraceCriticalPath (c : CriticalPathCache) (t : Trace) :
    List String × CriticalPathCache × Bool :=
  match c.entry with
  | some (t0, r) =>
    if t0 = t then (r, c, false)
    else (criticalPathOfTrace t, ⟨some (t, criticalPathOfTrace t)⟩, true)
  | none => (criticalPathOfTrace t, ⟨some (t, criticalPathOfTrace t)⟩, true)

/-- Parent id of a span id within a span list. -/
def parentOf (spans : List Span) (sid : String) : Option String :=
  (spans.find? (fun s => s.spanID = sid)).bind (·.parentID)

/-- Modelled from the spec: whether a span id is a strict descendant of one
of the given roots, following parent references (fuel-bounded). -/
def isDescendantOf (spans : List Span) (roots : List String) :
    Nat → String → Bool
  | 0, _ => false
  | fuel + 1, sid =>
    match parentOf spans sid with
    | none => false
    | some p => roots.contains p || isDescendantOf spans roots fuel p

/-- Modelled from the spec: the full descendant closure of the given roots
within a span list (the roots together with every span below them). -/
def descendantClosure (spans : List Span) (roots : List String) : List String :=
  (spans.map (·.spanID)).filter
    (fun sid => roots.contains sid || isDescendantOf spans roots spans.length sid)

/-- Modelled from the spec: `collapseAll` of `useChildrenState` (not in the
excerpt) — replaces the hidden-id set with the full descendant closure of
the given roots (spec section 4.1). -/
def collapseAll (spans : List Span) (roots : List String)
    (_hidden : List String) : List String :=
  descendantClosure spans roots

/-- Modelled from the spec: `expandAll` of `useChildrenState` (not in the
excerpt) — clears the hidden-id set (spec section 4.1). -/
def expandAll (_hidden : List String) : List String := []

/-- Case-insensitive substring check on character lists. -/
def subMatch (needle : List Char) : List Char → Bool
  | [] => needle.isEmpty
  | c :: rest => needle.isPrefixOf (c :: rest) || subMatch needle rest

/-- Characters of a string, lower-cased (the `toLowerCase` normalization of
the search semantics). -/
def lowerChars (s : String) : List Char :=
  s.toList.map Char.toLower

/-- Case-insensitive substring match between a query and a text field. -/
def matchText (q t : String) : Bool :=
  subMatch (lowerChars q) (lowerChars t)

/-- Modelled from the spec: whether one span matches a search query —
case-insensitive substring semantics over tags, service name, operation
name, and log content (spec section 4.3). -/
def matchSpan (q : String) (s : Span) : Bool :=
  matchText q s.serviceName || matchText q s.operationName ||
  s.tags.any (fun kv => matchText q kv.1 || matchText q kv.2) ||
  s.logs.any (fun l => matchText q l)

/-- Modelled from the spec: the match set of `useSearch` (not in the
excerpt) — the ids of spans matching the query, with the empty query
yielding the empty match set rather than all spans (spec section 4.3). -/
def searchMatches (q : String) (spans : List Span) : List String :=
  if q = "" then [] else (spans.filter (matchSpan q)).map (·.spanID)

/-- Observable outcome of one render of `TraceView`: whether the no-data
branch is rendered, and with which arguments the derivation logic
(`memoizedTraceCriticalPath`, `useSearch`) was invoked during the render.
Both calls sit in the component body before the conditional JSX, so they
execute on every render. -/
structure TraceViewRender where
  rendersNoData : Bool
  criticalPathInvoked : Bool
  criticalPathArg : Option Trace
  searchInvoked : Bool
  searchArg : Option (List Span)
deriving DecidableEq, Repr

/-- Embedding of the `TraceView` component body for a possibly-absent
`traceProp`: `useSearch(traceProp?.spans)` and
`memoizedTraceCriticalPath(traceProp)` run unconditionally, and the JSX
renders the no-data message unless `props.dataFrames?.length && traceProp`
is truthy. -/
def renderTraceView (dataFrames : List DataFrame) (traceProp : Option Trace) :
    TraceViewRender :=
  { rendersNoData := !(decide (dataFrames.length ≠ 0) && traceProp.isSome)
    criticalPathInvoked := true
    criticalPathArg := traceProp
    searchInvoked := true
    searchArg := traceProp.map (·.spans) }

/-- The part of an `OrgUser` read by the embedded `OrgUsersTable` code.
`orgUsersWriteInMetadata` and `orgUsersRemoveInMetadata` stand for the
results of `contextSrv.hasPermissionInMetadata` on the access control
metadata of this user; `authLabels` and `isExternallySynced` are the optional
fields so named on the TypeScript type. -/
structure OrgUser where
  userId : Nat
  login : String
  authLabels : Option (List String)
  isExternallySynced : Option Bool
  orgUsersWriteInMetadata : Bool
  orgUsersRemoveInMetadata : Bool
deriving DecidableEq, Repr

/-- Embedding of the auth-label line of `getBasicRoleDisabled`: the first
auth label when `authLabels` is a non-empty array, the empty string
otherwise. -/
def firstAuthLabel (user : OrgUser) : String :=
  match user.authLabels with
  | some (l :: _) => l
  | _ => ""

/-- Embedding of the body of `getBasicRoleDisabled`, continued: the role
editor is disabled when the caller lacks the `OrgUsersWrite` permission on
the user, and — unless the first auth label of the user is exactly
`grafana.com` while the `gcomOnlyExternalOrgRoleSync` feature toggle is
off — also when the user is externally synced. -/
def getBasicRoleDisabled (gcomOnlyExternalOrgRoleSync : Bool) (user : OrgUser) :
    Bool :=
  let basicRoleDisabled := !user.orgUsersWriteInMetadata
  let authLabel := firstAuthLabel user
  if authLabel ≠ "grafana.com" || gcomOnlyExternalOrgRoleSync then
    user.isExternallySynced.getD false || basicRoleDisabled
  else
    basicRoleDisabled

/-- A role option as fetched by `fetchRoleOptions`; only its presence in
the `roleOptions` state matters here. -/
structure Role where
  uid : String
  name : String
deriving DecidableEq, Repr

/-- The body of the `async function fetchOptions` of `OrgUsersTable` before
the `catch`: when the caller holds `ActionRolesList`, await the fetch (which
may fail) and produce the options to store; otherwise store nothing. -/
def fetchOptionsBody (hasActionRolesList : Bool)
    (fetchRoleOptions : Except String (List Role)) :
    Except String (Option (List Role)) :=
  if hasActionRolesList then fetchRoleOptions.map some else Except.ok none

/-- Embedding of the role-options effect of `OrgUsersTable`: run
`fetchOptions` when licensed access control is enabled, catching any failure
(logging it) so that nothing propagates; returns the resulting `roleOptions`
state (updated only on a successful fetch) and whether an error was
logged. -/
def fetchOptionsEffect (licensedAccessControlEnabled hasActionRolesList : Bool)
    (fetchRoleOptions : Except String (List Role))
    (roleOptions : List Role) : List Role × Bool :=
  if licensedAccessControlEnabled then
    match fetchOptionsBody hasActionRolesList fetchRoleOptions with
    | Except.ok (some options) => (options, false)
    | Except.ok none => (roleOptions, false)
    | Except.error _ => (roleOptions, true)
  else
    (roleOptions, false)

/-- Events on the delete-confirmation flow of `OrgUsersTable`: clicking the
per-row delete button, confirming the modal, dismissing the modal. -/
inductive ModalEvent where
  | clickDelete (u : OrgUser)
  | confirm
  | dismiss
deriving DecidableEq, Repr

/-- Embedding of the delete-confirmation state machine of `OrgUsersTable`.
The state is the `userToRemove` of `useState`; the second component of the
result is the argument `onRemoveUser` is invoked with (or `none` when it is
not invoked).  The delete button sets the pending user; `onConfirm` guards
on a null pending user, otherwise invokes `onRemoveUser(userToRemove)` and
resets to null; `onDismiss` resets to null without invoking. -/
def stepModal (userToRemove : Option OrgUser) (ev : ModalEvent) :
    Option OrgUser × Option OrgUser :=
  match ev with
  | ModalEvent.clickDelete u => (some u, none)
  | ModalEvent.confirm =>
    match userToRemove with
    | none => (none, none)
    | some u => (none, some u)
  | ModalEvent.dismiss => (none, none)

/-- Helper: the boolean same-trace check holds exactly when the query is
present with query type `traceql` and query string equal to the trace id. -/
theorem sameTraceCheck_iff (q : Option DataQuery) (traceId : String) :
    sameTraceCheck q traceId = true ↔
      ∃ qq, q = some qq ∧ qq.queryType = some "traceql" ∧ qq.query = traceId := by
  cases q with
  | none => simp [sameTraceCheck]
  | some qq => simp [sameTraceCheck]

/-- C1 (counterexample): rendering `TraceView` with no data frames and an
absent trace does render the no-data state, but the critical-path
derivation is nevertheless invoked with the undefined trace, so the claim
that none of the derivation logic is invoked with the undefined input is
false. -/
theorem traceView_absent_trace_claim_false :
    ¬ ((renderTraceView [] none).rendersNoData = true ∧
       ¬ (((renderTraceView [] none).criticalPathInvoked = true ∧
            (renderTraceView [] none).criticalPathArg = none) ∨
          ((renderTraceView [] none).searchInvoked = true ∧
            (renderTraceView [] none).searchArg = none))) := by
  decide

/-- C1 (amended): for every render of `TraceView` with an absent trace, the
component renders the no-data state, but the derivation logic is still
invoked with the undefined input: `memoizedTraceCriticalPath` is called
with the undefined trace and `useSearch` with the undefined span list,
because both calls precede the conditional JSX in the component body. -/
theorem traceView_absent_trace (dataFrames : List DataFrame) :
    (renderTraceView dataFrames none).rendersNoData = true ∧
    (renderTraceView dataFrames none).criticalPathInvoked = true ∧
    (renderTraceView dataFrames none).criticalPathArg = none ∧
    (renderTraceView dataFrames none).searchInvoked = true ∧
    (renderTraceView dataFrames none).searchArg = none := by
  simp [renderTraceView]

/-- C2: with a split-open function available, the focus link resolver
attaches the in-place focus-toggle action exactly when the active query has
type `traceql` and its query string equals the trace id; in every other
case the action opens a split view against the trace id with panel state
pre-focusing the span id. -/
theorem focusLink_toggle_iff_sameTrace (opts : FocusLinkOptions)
    (q : Option DataQuery) (focused : Option String) (traceId spanId : String)
    (hsplit : opts.hasSplitOpenFn = true) :
    ((createFocusSpanLink opts q focused traceId spanId).onClick =
        ClickAction.setFocus (if focused = some spanId then none else some spanId) ↔
      ∃ qq, q = some qq ∧ qq.queryType = some "traceql" ∧ qq.query = traceId) ∧
    ((¬ ∃ qq, q = some qq ∧ qq.queryType = some "traceql" ∧ qq.query = traceId) →
      (createFocusSpanLink opts q focused traceId spanId).onClick =
        ClickAction.splitOpen
          { datasourceUid := opts.datasource.map (·.uid)
            queries := [spreadWithTraceId q traceId]
            panelSpanId := spanId }) := by
  by_cases hst : sameTraceCheck q traceId = true
  · constructor
    · simp [createFocusSpanLink, hst, ← sameTraceCheck_iff]
    · intro hno
      exact absurd ((sameTraceCheck_iff q traceId).mp hst) hno
  · constructor
    · simp only [createFocusSpanLink, Bool.not_eq_true] at hst ⊢
      simp [hst, hsplit, ← sameTraceCheck_iff]
    · intro _
      simp only [Bool.not_eq_true] at hst
      simp [createFocusSpanLink, hst, hsplit]

/-- Witness for C2 at a concrete same-trace query and at no particular
datasource. -/
theorem focusLink_toggle_iff_sameTrace_witness :
    ((createFocusSpanLink ⟨"left", true, some "A", none⟩
        (some ⟨"A", some "traceql", "trace1"⟩) none "trace1" "span1").onClick =
      ClickAction.setFocus
        (if (none : Option String) = some "span1" then none else some "span1") ↔
      ∃ qq, some (⟨"A", some "traceql", "trace1"⟩ : DataQuery) = some qq ∧
        qq.queryType = some "traceql" ∧ qq.query = "trace1") ∧
    ((¬ ∃ qq, some (⟨"A", some "traceql", "trace1"⟩ : DataQuery) = some qq ∧
        qq.queryType = some "traceql" ∧ qq.query = "trace1") →
      (createFocusSpanLink ⟨"left", true, some "A", none⟩
          (some ⟨"A", some "traceql", "trace1"⟩) none "trace1" "span1").onClick =
        ClickAction.splitOpen
          { datasourceUid := (none : Option DataSourceRef).map (·.uid)
            queries := [spreadWithTraceId (some ⟨"A", some "traceql", "trace1"⟩) "trace1"]
            panelSpanId := "span1" }) :=
  focusLink_toggle_iff_sameTrace ⟨"left", true, some "A", none⟩
    (some ⟨"A", some "traceql", "trace1"⟩) none "trace1" "span1" rfl

/-- Helper: in the same-trace case, one click on the focus link toggles the
focused span id. -/
theorem focusAfterClick_sameTrace (opts : FocusLinkOptions) (qq : DataQuery)
    (traceId spanId : String) (focused : Option String)
    (hqt : qq.queryType = some "traceql") (hq : qq.query = traceId) :
    focusAfterClick opts (some qq) focused traceId spanId =
      if focused = some spanId then none else some spanId := by
  have hst : sameTraceCheck (some qq) traceId = true := by
    simp [sameTraceCheck, hqt, hq]
  simp [focusAfterClick, createFocusSpanLink, hst]

/-- C3: in the same-trace case the focus click has toggle semantics — it
clears the focus when the clicked span is already focused and sets it
otherwise; hence clicking the same span id twice from the unfocused state
yields an undefined focus, and clicking two different span ids in sequence
leaves the focus equal to the second id only. -/
theorem focusClick_toggle (opts : FocusLinkOptions) (qq : DataQuery)
    (traceId s1 s2 : String) (focused : Option String)
    (hqt : qq.queryType = some "traceql") (hq : qq.query = traceId) :
    (focused = some s1 → focusAfterClick opts (some qq) focused traceId s1 = none) ∧
    (focused ≠ some s1 →
      focusAfterClick opts (some qq) focused traceId s1 = some s1) ∧
    focusAfterClick opts (some qq)
      (focusAfterClick opts (some qq) none traceId s1) traceId s1 = none ∧
    (s1 ≠ s2 →
      focusAfterClick opts (some qq)
        (focusAfterClick opts (some qq) none traceId s1) traceId s2 = some s2) := by
  refine ⟨?_, ?_, ?_, ?_⟩
  · intro h
    subst h
    simp [focusAfterClick_sameTrace opts qq traceId s1 (some s1) hqt hq]
  · intro h
    simp [focusAfterClick_sameTrace opts qq traceId s1 focused hqt hq, h]
  · simp [focusAfterClick_sameTrace opts qq traceId s1 _ hqt hq,
      focusAfterClick_sameTrace opts qq traceId s1 none hqt hq]
  · intro hne
    simp [focusAfterClick_sameTrace opts qq traceId s2 _ hqt hq,
      focusAfterClick_sameTrace opts qq traceId s1 none hqt hq, hne]

/-- Witness for C3: clicking span `a` twice from the unfocused state clears
the focus, and clicking `a` then `b` leaves the focus on `b` only. -/
theorem focusClick_toggle_witness :
    focusAfterClick ⟨"left", true, some "A", none⟩
      (some ⟨"A", some "traceql", "trace1"⟩)
      (focusAfterClick ⟨"left", true, some "A", none⟩
        (some ⟨"A", some "traceql", "trace1"⟩) none "trace1" "a") "trace1" "a" =
      none ∧
    focusAfterClick ⟨"left", true, some "A", none⟩
      (some ⟨"A", some "traceql", "trace1"⟩)
      (focusAfterClick ⟨"left", true, some "A", none⟩
        (some ⟨"A", some "traceql", "trace1"⟩) none "trace1" "a") "trace1" "b" =
      some "b" :=
  ⟨(focusClick_toggle ⟨"left", true, some "A", none⟩ ⟨"A", some "traceql", "trace1"⟩
      "trace1" "a" "b" none rfl rfl).2.2.1,
   (focusClick_toggle ⟨"left", true, some "A", none⟩ ⟨"A", some "traceql", "trace1"⟩
      "trace1" "a" "b" none rfl rfl).2.2.2 (by decide)⟩

/-- C4: the memoized critical-path computation returns the very same result
on a repeated call with an unchanged trace without recomputing, and it
recomputes (with a fresh `criticalPathOfTrace` run) exactly when it is
called with a different trace. -/
theorem memoizedCriticalPath_stable (c : CriticalPathCache) (t t2 : Trace)
    (hne : t2 ≠ t) :
    memoizedTraceCriticalPath (memoizedTraceCriticalPath c t).2.1 t =
      ((memoizedTraceCriticalPath c t).1,
        (memoizedTraceCriticalPath c t).2.1, false) ∧
    (memoizedTraceCriticalPath (memoizedTraceCriticalPath c t).2.1 t2).1 =
      criticalPathOfTrace t2 ∧
    (memoizedTraceCriticalPath (memoizedTraceCriticalPath c t).2.1 t2).2.2 =
      true := by
  obtain ⟨ent⟩ := c
  cases ent with
  | none => simp [memoizedTraceCriticalPath, hne.symm]
  | some pr =>
    obtain ⟨t0, r⟩ := pr
    by_cases h : t0 = t
    · subst h
      simp [memoizedTraceCriticalPath, hne.symm]
    · simp [memoizedTraceCriticalPath, h, hne.symm]

/-- Witness for C4: after caching the critical path of one concrete trace,
a call with a different concrete trace recomputes. -/
theorem memoizedCriticalPath_stable_witness :
    (memoizedTraceCriticalPath
      (memoizedTraceCriticalPath ⟨none⟩ ⟨"trace1", []⟩).2.1 ⟨"trace2", []⟩).2.2 =
      true :=
  (memoizedCriticalPath_stable ⟨none⟩ ⟨"trace1", []⟩ ⟨"trace2", []⟩
    (by decide)).2.2

/-- C5: collapsing all after expanding all yields exactly the hidden set of
collapsing all alone, since `collapseAll` replaces the hidden set with the
full descendant closure of the given roots and `expandAll` clears it. -/
theorem expandAll_collapseAll_override (spans : List Span)
    (roots hidden : List String) :
    collapseAll spans roots (expandAll hidden) = collapseAll spans roots hidden ∧
    collapseAll spans roots hidden = descendantClosure spans roots ∧
    expandAll hidden = ([] : List String) :=
  ⟨rfl, rfl, rfl⟩

/-- Helper: the empty needle is a substring of every character list. -/
theorem subMatch_nil_needle (hay : List Char) : subMatch [] hay = true := by
  cases hay <;> rfl

/-- Helper: the empty query matches every text field. -/
theorem matchText_empty (t : String) : matchText "" t = true := by
  have h : lowerChars "" = [] := rfl
  simp [matchText, h, subMatch_nil_needle]

/-- Helper: the empty query matches every span under the raw substring
semantics. -/
theorem matchSpan_empty_query (s : Span) : matchSpan "" s = true := by
  simp [matchSpan, matchText_empty]

/-- C6: on a non-empty span list the empty search query yields the empty
match set — even though under the raw substring semantics the empty query
would match every span, so the result is the empty set and not the set of
all spans. -/
theorem searchMatches_empty_query (spans : List Span) (_hne : spans ≠ []) :
    searchMatches "" spans = [] ∧ ∀ s ∈ spans, matchSpan "" s = true :=
  ⟨by simp [searchMatches], fun s _ => matchSpan_empty_query s⟩

/-- Witness for C6 on a concrete one-span trace. -/
theorem searchMatches_empty_query_witness :
    searchMatches "" [⟨"a", none, 0, 1, "svc", "op", [], []⟩] = [] :=
  (searchMatches_empty_query [⟨"a", none, 0, 1, "svc", "op", [], []⟩]
    (by decide)).1

/-- C7: when the role-options fetch fails, the failure is absorbed by the
effect (which returns normally), the role options state stays the empty
list, and — whenever the fetch was actually attempted, i.e. licensed access
control is enabled and the caller may list roles — the error is logged. -/
theorem fetchOptions_failure_caught (licensed hasPerm : Bool) (e : String) :
    (fetchOptionsEffect licensed hasPerm (Except.error e) []).1 = [] ∧
    (fetchOptionsEffect true true (Except.error e) []).2 = true := by
  cases licensed <;> cases hasPerm <;>
    simp [fetchOptionsEffect, fetchOptionsBody, Except.map]

/-- C8: with an absent datasource the focus link is still constructed — its
title, spread query and panel span id are all in place — and the datasource
identity fields of the link are simply undefined. -/
theorem focusLink_absent_datasource (exploreId : String) (hasSplit : Bool)
    (refId : Option String) (q : Option DataQuery) (focused : Option String)
    (traceId spanId : String) :
    (createFocusSpanLink ⟨exploreId, hasSplit, refId, none⟩ q focused traceId
      spanId).datasourceUid = none ∧
    (createFocusSpanLink ⟨exploreId, hasSplit, refId, none⟩ q focused traceId
      spanId).datasourceName = none ∧
    (createFocusSpanLink ⟨exploreId, hasSplit, refId, none⟩ q focused traceId
      spanId).title = "Deep link to this span" ∧
    (createFocusSpanLink ⟨exploreId, hasSplit, refId, none⟩ q focused traceId
      spanId).linkQuery = spreadWithTraceId q traceId ∧
    (createFocusSpanLink ⟨exploreId, hasSplit, refId, none⟩ q focused traceId
      spanId).panelSpanId = spanId := by
  simp [createFocusSpanLink]

/-- C9: `onRemoveUser` is invoked with a user exactly when the confirm
event fires while that user is pending; dismissing never invokes it, and
both confirm and dismiss reset the pending user to null. -/
theorem removeUser_confirm_only (s : Option OrgUser) (ev : ModalEvent)
    (u : OrgUser) :
    ((stepModal s ev).2 = some u ↔ ev = ModalEvent.confirm ∧ s = some u) ∧
    stepModal s ModalEvent.dismiss = (none, none) ∧
    (stepModal s ModalEvent.confirm).1 = none := by
  cases ev <;> cases s <;> simp [stepModal]

/-- C10: when the first auth label of the user is `grafana.com` and the
`gcomOnlyExternalOrgRoleSync` toggle is off, the role editor is disabled
exactly when the caller lacks the `OrgUsersWrite` permission, regardless of
the externally-synced flag; in every other case being externally synced
also disables it. -/
theorem basicRoleDisabled_gcom (gcom : Bool) (user : OrgUser) :
    (firstAuthLabel user = "grafana.com" ∧ gcom = false →
      getBasicRoleDisabled gcom user = !user.orgUsersWriteInMetadata) ∧
    (¬ (firstAuthLabel user = "grafana.com" ∧ gcom = false) →
      getBasicRoleDisabled gcom user =
        (user.isExternallySynced.getD false || !user.orgUsersWriteInMetadata)) := by
  constructor
  · rintro ⟨h1, h2⟩
    subst h2
    simp [getBasicRoleDisabled, h1]
  · intro h
    rcases not_and_or.mp h with h1 | h2
    · simp [getBasicRoleDisabled, h1]
    · have hg : gcom = true := by
        cases gcom
        · exact absurd rfl h2
        · rfl
      subst hg
      simp [getBasicRoleDisabled]

/-- Witness for C10: an externally synced user whose first auth label is
`grafana.com`, with the toggle off, keeps the role editor enabled for a
caller who holds the write permission. -/
theorem basicRoleDisabled_gcom_witness :
    getBasicRoleDisabled false ⟨1, "u", some ["grafana.com"], some true, true, true⟩ =
      !(⟨1, "u", some ["grafana.com"], some true, true, true⟩ :
        OrgUser).orgUsersWriteInMetadata :=
  (basicRoleDisabled_gcom false
    ⟨1, "u", some ["grafana.com"], some true, true, true⟩).1 ⟨rfl, rfl⟩

end Grafana
